import Mathlib

/-!
Shallow embedding of `scripts/mn-ndnd.py`, a Mininet orchestration script for
a five-node NDN network (ground nodes g1, g2; relays s1, s2, s3), together
with theorems checking the natural-language specification against it.

Python floats that the claims only compare by sign or carry opaquely are
modelled as `ℚ`; octets and indices as `Nat`; filesystem and process effects
as explicit state records threaded through the translated control flow.
-/

namespace MnNdnd

/-! ## Subnet allocation (`_alloc_p2p_subnet`)

The source computes, for a link-creation index, `third = index // 64`,
`fourth = (index % 64) * 4` and renders `10.0.{third}.{fourth}/30` with host
addresses at offsets +1 and +2.  We keep the numeric octets as the core
value and render the strings exactly as the source does. -/

structure Subnet30 where
  third : Nat
  fourth : Nat
deriving DecidableEq, Repr

def allocate (index : Nat) : Subnet30 :=
  { third := index / 64, fourth := index % 64 * 4 }

structure P2PSubnet where
  cidr : String
  ip1 : String
  ip2 : String
deriving DecidableEq, Repr

def alloc_p2p_subnet (index : Nat) : P2PSubnet :=
  let s := allocate index
  { cidr := "10.0." ++ toString s.third ++ "." ++ toString s.fourth ++ "/30"
    ip1 := "10.0." ++ toString s.third ++ "." ++ toString (s.fourth + 1)
    ip2 := "10.0." ++ toString s.third ++ "." ++ toString (s.fourth + 2) }

/-- An address `(third, off)` of the `10.0.0.0/16`-shaped space lies in the
/30 block allocated for `index`: same third octet, and the fourth octet within
the four-address block starting at the block base. -/
def inBlock (index third off : Nat) : Prop :=
  third = (allocate index).third ∧
    (allocate index).fourth ≤ off ∧ off < (allocate index).fourth + 4

instance (index third off : Nat) : Decidable (inBlock index third off) := by
  unfold inBlock; infer_instance

/-- Number of /30 blocks that fit in the /16-equivalent space `10.0.x.y`
(256 third-octet values, 64 blocks of four addresses each). -/
def subnetCapacity : Nat := 256 * 64

/-- Linear address (third octet * 256 + fourth octet) of a block base. -/
def blockBaseAddr (index : Nat) : Nat :=
  (allocate index).third * 256 + (allocate index).fourth

/-! ## Topology (`main`: node set, `add_p2p` calls, link status)

`main` creates hosts `g1 g2 s1 s2 s3` and six point-to-point links in a fixed
order (subnet indices 0..5): the two backbone (`isl`) links `s1-s2`, `s2-s3`,
then the four access links `g1-s1`, `g1-s2`, `g2-s2`, `g2-s3`.  After
`net.start()` every link is up; the script then sets `g1-s2` and `g2-s2`
down (steady state).  The handover callback sets `g1-s1`/`g2-s3` down and
`g1-s2`/`g2-s2` up. -/

def nodeNames : List String := ["g1", "g2", "s1", "s2", "s3"]

structure LinkRec where
  a : String
  b : String
  a_ip : String
  b_ip : String
  cidr : String
  kind : String
deriving DecidableEq, Repr

def mkLink (a b kind : String) (idx : Nat) : LinkRec :=
  let s := alloc_p2p_subnet idx
  { a := a, b := b, a_ip := s.ip1, b_ip := s.ip2, cidr := s.cidr, kind := kind }

def links : List LinkRec :=
  [ mkLink "s1" "s2" "isl" 0
  , mkLink "s2" "s3" "isl" 1
  , mkLink "g1" "s1" "access" 2
  , mkLink "g1" "s2" "access" 3
  , mkLink "g2" "s2" "access" 4
  , mkLink "g2" "s3" "access" 5 ]

/-- Python's `{a, b} == {x, y}` on two-element node-name sets. -/
def pairIs (a b x y : String) : Bool :=
  (a == x && b == y) || (a == y && b == x)

/-- `net.configLinkStatus(x, y, st)`: update the status of the link between
nodes `x` and `y` (unordered), leaving every other link unchanged. -/
def setLinkStatus (x y : String) (st : Bool) (f : LinkRec → Bool) : LinkRec → Bool :=
  fun l => if pairIs l.a l.b x y then st else f l

/-- Status after `net.start()` (all links up) followed by the two
`configLinkStatus(..., "down")` calls right after topology build. -/
def steadyStatus : LinkRec → Bool :=
  setLinkStatus "g2" "s2" false (setLinkStatus "g1" "s2" false (fun _ => true))

/-- The four `configLinkStatus` calls performed by the `handover` callback,
applied to an arbitrary prior status. -/
def handoverTransition (st : LinkRec → Bool) : LinkRec → Bool :=
  setLinkStatus "g2" "s2" true
    (setLinkStatus "g2" "s3" false
      (setLinkStatus "g1" "s2" true
        (setLinkStatus "g1" "s1" false st)))

def switchedStatus : LinkRec → Bool :=
  handoverTransition steadyStatus

def groundNodes : List String := ["g1", "g2"]

def accessLinksOf (g : String) : List LinkRec :=
  links.filter (fun l => l.kind == "access" && (l.a == g || l.b == g))

/-- Number of `g`'s access links that are up under status `st`. -/
def upCount (st : LinkRec → Bool) (g : String) : Nat :=
  ((accessLinksOf g).filter st).length

def linkG1S1 : LinkRec := mkLink "g1" "s1" "access" 2
def linkG1S2 : LinkRec := mkLink "g1" "s2" "access" 3
def linkG2S2 : LinkRec := mkLink "g2" "s2" "access" 4
def linkG2S3 : LinkRec := mkLink "g2" "s3" "access" 5

/-! ## Impairment parameters (`_tc_link_kwargs`)

The source builds a keyword dictionary for `TCLink`: `bw` and `use_htb` are
added when `bw is not None`; `delay`/`jitter` when the string is truthy
(non-`None` and non-empty); `loss` when `loss is not None`; `max_queue_size`
when `queue is not None`.  Dictionary-key presence becomes `Option` fields;
Python floats become `ℚ`. -/

structure TcKwargs where
  bw : Option ℚ
  use_htb : Option Bool
  delay : Option String
  jitter : Option String
  loss : Option ℚ
  max_queue_size : Option Int
deriving DecidableEq, Repr

/-- Python truthiness of an optional string: `None` and `""` are falsy. -/
def truthyStr : Option String → Bool
  | none => false
  | some s => !(s == "")

def tc_link_kwargs (bw : Option ℚ) (delay jitter : Option String)
    (loss : Option ℚ) (queue : Option Int) : TcKwargs :=
  { bw := bw
    use_htb := if bw.isSome then some true else none
    delay := if truthyStr delay then delay else none
    jitter := if truthyStr jitter then jitter else none
    loss := loss
    max_queue_size := queue }

/-- Modelled from the spec: the validation the spec ascribes to impairment
profile construction — bandwidth > 0, delay/jitter non-negative durations or
absent, loss in [0,100], queue depth > 0 if present — which is absent from
`_tc_link_kwargs` itself.  Durations are strings in the source; a duration
string is treated as non-negative when it does not start with a minus sign. -/
def nonNegDuration : Option String → Bool
  | none => true
  | some s => !(s.startsWith "-")

def bwInvalid : Option ℚ → Bool
  | none => false
  | some x => decide (x ≤ 0)

def lossInvalid : Option ℚ → Bool
  | none => false
  | some x => decide (x < 0) || decide (100 < x)

def queueInvalid : Option Int → Bool
  | none => false
  | some x => decide (x ≤ 0)

def tc_link_kwargs_validated (bw : Option ℚ) (delay jitter : Option String)
    (loss : Option ℚ) (queue : Option Int) : Except String TcKwargs :=
  if bwInvalid bw then .error "bandwidth must be positive"
  else if nonNegDuration delay = false then .error "delay must be non-negative"
  else if nonNegDuration jitter = false then .error "jitter must be non-negative"
  else if lossInvalid loss then .error "loss must be in 0..100"
  else if queueInvalid queue then .error "queue depth must be positive"
  else .ok (tc_link_kwargs bw delay jitter loss queue)

/-! ## Readiness wait (`main`: the socket poll loop)

The source sets `deadline = time.time() + 8`, initialises `missing = []`,
and loops while the deadline has not passed: recompute the list of nodes
whose control socket does not yet exist, break if it is empty, else sleep
100 ms.  We model wall-clock time by the poll step number `t`, socket
appearance by `ready : Nat → String → Bool`, and the deadline by the number
`fuel` of iterations the time check admits; the result carries the final
`missing` list and the number of polls performed. -/

def missingAt (ready : Nat → String → Bool) (t : Nat) : List String :=
  nodeNames.filter (fun n => !(ready t n))

def waitAll (ready : Nat → String → Bool) : Nat → Nat → List String × Nat
  | 0, _ => ([], 0)
  | fuel + 1, t =>
    if (missingAt ready t).isEmpty then ([], 1)
    else if fuel = 0 then (missingAt ready t, 1)
    else ((waitAll ready fuel (t + 1)).1, (waitAll ready fuel (t + 1)).2 + 1)

/-! ## Neighbor linking (`main`: the `dv link-create` passes)

For each link not skipped, the script runs, on each endpoint, the control
command `dv link-create "udp://<peer ip>:<udp port>"`.  The initial pass
skips exactly the links whose endpoint set is `{g1, s2}` or `{g2, s2}`;
the handover callback's pass keeps exactly those. -/

structure Cmd where
  issuer : String
  uri : String
deriving DecidableEq, Repr

def linkCreateCmds (port : Nat) (l : LinkRec) : List Cmd :=
  [ { issuer := l.a, uri := "udp://" ++ l.b_ip ++ ":" ++ toString port }
  , { issuer := l.b, uri := "udp://" ++ l.a_ip ++ ":" ++ toString port } ]

/-- The initial pass's `continue` condition: the link is one of the two
access links that start down. -/
def skipInitial (l : LinkRec) : Bool :=
  pairIs l.a l.b "g1" "s2" || pairIs l.a l.b "g2" "s2"

def initialLinkCmds (port : Nat) : List Cmd :=
  (links.filter (fun l => !(skipInitial l))).flatMap (linkCreateCmds port)

def handoverLinkCmds (port : Nat) : List Cmd :=
  (links.filter skipInitial).flatMap (linkCreateCmds port)

/-! ## Handover scheduling (`main`: the `--handover-after` guard)

The script spawns exactly one background thread running the handover
callback when `args.handover_after > 0`, and none otherwise.  The float
delay is modelled as `ℚ`; the spawned bodies are collected in a list and
the final link status is the fold of their transitions over the steady
state. -/

def handoverThreads (delay : ℚ) : List ((LinkRec → Bool) → (LinkRec → Bool)) :=
  if 0 < delay then [handoverTransition] else []

def finalStatus (delay : ℚ) : LinkRec → Bool :=
  (handoverThreads delay).foldl (fun st t => t st) steadyStatus

/-! ## Binary resolution and startup (`_find_ndnd`, the head of `main`)

`_find_ndnd` resolves the daemon binary: an explicit path (made absolute,
must exist), else `shutil.which("ndnd")`, else `<repo_root>/ndnd/ndnd` if it
exists, else a `FileNotFoundError`.  `main` checks root privilege, resolves
the binary, and only then creates the state directory, writes the wrapper,
adds the five hosts and links, writes per-node configs and spawns daemons.
Filesystem lookups are a parameter; effects are recorded in a `World`. -/

structure Fsys where
  pathExists : String → Bool
  whichNdnd : Option String
  isAbs : String → Bool
  abspath : String → String

def find_ndnd (fs : Fsys) (explicit : Option String) (repo_root : String) :
    Except String String :=
  match explicit with
  | some p0 =>
    let p := if fs.isAbs p0 then p0 else fs.abspath p0
    if fs.pathExists p then .ok p else .error ("--ndnd not found: " ++ p)
  | none =>
    match fs.whichNdnd with
    | some p => .ok p
    | none =>
      let p := repo_root ++ "/ndnd/ndnd"
      if fs.pathExists p then .ok p
      else .error "Cannot find ndnd binary. Build it with `make -C ndnd` or pass `--ndnd /path/to/ndnd`."

structure World where
  dirs : List String
  files : List String
  hosts : List String
  procs : List String
deriving DecidableEq, Repr

def World.pristine : World := { dirs := [], files := [], hosts := [], procs := [] }

structure MainArgs where
  ndnd : Option String
  state_dir : String
deriving DecidableEq, Repr

/-- The head of `main`, up to daemon launch: the privilege check, the binary
resolution, and — only on success — every file/host/process effect, recorded
in creation order.  On either pre-flight failure the world stays pristine. -/
def mainStartup (isRoot : Bool) (fs : Fsys) (args : MainArgs) (repo_root : String) :
    World × Except String Unit :=
  if !isRoot then
    (World.pristine,
      .error "Mininet requires root. Run with: sudo python3 scripts/mn-ndnd.py ...")
  else
    match find_ndnd fs args.ndnd repo_root with
    | .error e => (World.pristine, .error e)
    | .ok _ =>
      let state_dir := fs.abspath args.state_dir
      ({ dirs := [state_dir]
         files := (state_dir ++ "/ndndctl")
           :: (nodeNames.flatMap (fun n =>
                [state_dir ++ "/" ++ n ++ ".yml", state_dir ++ "/" ++ n ++ ".log"]))
         hosts := nodeNames
         procs := nodeNames }, .ok ())

/-! ## Cleanup (`cleanup` in `main`)

`cleanup` iterates over a snapshot of the process table; for each entry it
sends SIGTERM and waits up to 2 s, on any failure falls back to `kill()`
whose own failure is swallowed, and unconditionally pops the entry from the
table; finally `net.stop()` is attempted with errors swallowed.  The socket
files under the state directory are never touched here (stale sockets are
unlinked only at the next run's startup).  Each process carries flags for
whether its graceful termination and its kill report succeed. -/

structure ProcBehavior where
  termWaitOk : Bool
  killOk : Bool
deriving DecidableEq, Repr

structure RunState where
  procs : List (String × ProcBehavior)
  sockets : List String
  netRunning : Bool
deriving DecidableEq, Repr

/-- The signals one `stop` attempt sends: SIGTERM always, then SIGKILL only
when the graceful wait failed (timeout or error). -/
def stopActions (name : String) (p : ProcBehavior) : List String :=
  ("SIGTERM " ++ name) :: (if p.termWaitOk then [] else ["SIGKILL " ++ name])

/-- The `for name, proc in list(procs.items())` loop: walk the snapshot,
popping each visited name from the live table. -/
def cleanupLoop :
    List (String × ProcBehavior) → List (String × ProcBehavior) →
      List (String × ProcBehavior)
  | [], tbl => tbl
  | e :: rest, tbl => cleanupLoop rest (tbl.filter (fun q => !(q.1 == e.1)))

def cleanup (s : RunState) : RunState × List String :=
  ({ procs := cleanupLoop s.procs s.procs
     sockets := s.sockets
     netRunning := false },
   s.procs.flatMap (fun e => stopActions e.1 e.2))

def cleanupState (s : RunState) : RunState := (cleanup s).1

/-- A run state with one tracked daemon whose graceful and forceful
terminations both fail and whose control socket file is present. -/
def stuckRunState : RunState :=
  { procs := [("g1", { termWaitOk := false, killOk := false })]
    sockets := ["/tmp/ndn-mn/g1.sock"]
    netRunning := true }

theorem allocate_inj {i j : Nat} (h : allocate i = allocate j) : i = j := by
  have h1 : i / 64 = j / 64 := congrArg Subnet30.third h
  have h2 : i % 64 * 4 = j % 64 * 4 := congrArg Subnet30.fourth h
  omega

theorem inBlock_disjoint {i j : Nat} (hij : i ≠ j) (t o : Nat) :
    ¬(inBlock i t o ∧ inBlock j t o) := by
  rintro ⟨⟨h1, h2, h3⟩, ⟨h4, h5, h6⟩⟩
  simp only [allocate] at h1 h2 h3 h4 h5 h6
  omega

/-- C1: Right after topology build (steady state), each ground node has
exactly one access link up — `g1-s1` and `g2-s3` up, `g1-s2` and `g2-s2`
down — and after the handover transition each ground node again has exactly
one access link up, and it is the other candidate: every access link's
status is flipped (`g1-s2` and `g2-s2` up; `g1-s1` and `g2-s3` down). -/
theorem ground_access_single_homed :
    (upCount steadyStatus "g1" = 1 ∧ upCount steadyStatus "g2" = 1) ∧
    (steadyStatus linkG1S1 = true ∧ steadyStatus linkG2S3 = true ∧
      steadyStatus linkG1S2 = false ∧ steadyStatus linkG2S2 = false) ∧
    (upCount switchedStatus "g1" = 1 ∧ upCount switchedStatus "g2" = 1) ∧
    (switchedStatus linkG1S2 = true ∧ switchedStatus linkG2S2 = true ∧
      switchedStatus linkG1S1 = false ∧ switchedStatus linkG2S3 = false) ∧
    (∀ g ∈ groundNodes, ∀ l ∈ accessLinksOf g,
      switchedStatus l = !steadyStatus l) := by
  decide

theorem ground_access_single_homed_witness :
    switchedStatus linkG1S2 = !steadyStatus linkG1S2 :=
  ground_access_single_homed.2.2.2.2 "g1" (by decide) linkG1S2 (by decide)

/-- C2: For distinct link-creation indices the /30 blocks returned by
`allocate` are disjoint — no address of the space lies in both — and the
same block is never returned for two different indices. -/
theorem allocate_blocks_disjoint (i j : Nat) (hij : i ≠ j) :
    (∀ t o, ¬(inBlock i t o ∧ inBlock j t o)) ∧ allocate i ≠ allocate j :=
  ⟨fun t o => inBlock_disjoint hij t o, fun h => hij (allocate_inj h)⟩

theorem allocate_blocks_disjoint_witness :
    ¬(inBlock 0 0 1 ∧ inBlock 1 0 1) ∧ allocate 0 ≠ allocate 1 :=
  ⟨(allocate_blocks_disjoint 0 1 (by decide)).1 0 1,
    (allocate_blocks_disjoint 0 1 (by decide)).2⟩

/-- C3 counterexample: at the first index at capacity (`16384`), `allocate`
does not fail with any capacity error — it returns a block whose third octet
`256` lies outside the /16-equivalent space, refuting the claim that every
index at or beyond capacity fails with `CapacityExceeded`. -/
theorem allocate_beyond_capacity_returns :
    allocate subnetCapacity = { third := 256, fourth := 0 } ∧
      ¬(allocate subnetCapacity).third < 256 := by
  decide

/-- C3 amended: `allocate` is a deterministic pure function laying out
consecutive /30 blocks (the block base's linear address is `4 * index`);
for indices below capacity the block lies inside the /16-equivalent space,
but the function performs no capacity check: at or beyond capacity it still
returns a block, whose third octet falls outside the valid octet range. -/
theorem allocate_consecutive_blocks (i : Nat) :
    blockBaseAddr i = 4 * i ∧
    (i < subnetCapacity → (allocate i).third < 256 ∧ (allocate i).fourth + 3 < 256) ∧
    (subnetCapacity ≤ i → 256 ≤ (allocate i).third) := by
  refine ⟨?_, fun h => ?_, fun h => ?_⟩ <;>
    simp only [blockBaseAddr, allocate, subnetCapacity] at * <;> omega

theorem allocate_consecutive_blocks_witness :
    blockBaseAddr 5 = 4 * 5 ∧
      ((allocate 5).third < 256 ∧ (allocate 5).fourth + 3 < 256) ∧
      256 ≤ (allocate subnetCapacity).third :=
  ⟨(allocate_consecutive_blocks 5).1,
    (allocate_consecutive_blocks 5).2.1 (by decide),
    (allocate_consecutive_blocks subnetCapacity).2.2 (by decide)⟩

/-- C4 counterexample: with bandwidth −1 (not strictly positive), loss 150
(outside [0,100]) and queue depth 0 (not strictly positive), construction
does not fail: `_tc_link_kwargs` returns the full option set carrying the
invalid values unchanged, while the validation the claim describes rejects
the same input. -/
theorem tc_link_kwargs_no_validation :
    tc_link_kwargs (some (-1)) (some "25ms") (some "2ms") (some 150) (some 0)
      = { bw := some (-1), use_htb := some true, delay := some "25ms",
          jitter := some "2ms", loss := some 150, max_queue_size := some 0 } ∧
    tc_link_kwargs_validated (some (-1)) (some "25ms") (some "2ms") (some 150) (some 0)
      = .error "bandwidth must be positive" :=
  ⟨rfl, rfl⟩

/-- C4 amended: impairment construction performs no validation: for every
combination of parameter values, including ones that violate every
constraint the spec lists (bandwidth ≤ 0, loss outside [0,100], queue depth
≤ 0), `_tc_link_kwargs` succeeds and passes the values through unchanged,
exactly where the spec-modelled validator rejects the input. -/
theorem tc_link_kwargs_accepts_invalid (b l : ℚ) (q : Int) (d j : Option String)
    (hb : b ≤ 0) (hl : 100 < l) (hq : q ≤ 0) :
    (tc_link_kwargs (some b) d j (some l) (some q)).bw = some b ∧
    (tc_link_kwargs (some b) d j (some l) (some q)).loss = some l ∧
    (tc_link_kwargs (some b) d j (some l) (some q)).max_queue_size = some q ∧
    tc_link_kwargs_validated (some b) d j (some l) (some q)
      = .error "bandwidth must be positive" := by
  refine ⟨rfl, rfl, rfl, ?_⟩
  simp [tc_link_kwargs_validated, bwInvalid, hb]

theorem tc_link_kwargs_accepts_invalid_witness :
    (tc_link_kwargs (some (-1)) none none (some 150) (some 0)).bw = some (-1) ∧
    (tc_link_kwargs (some (-1)) none none (some 150) (some 0)).loss = some 150 ∧
    (tc_link_kwargs (some (-1)) none none (some 150) (some 0)).max_queue_size
      = some 0 ∧
    tc_link_kwargs_validated (some (-1)) none none (some 150) (some 0)
      = .error "bandwidth must be positive" :=
  tc_link_kwargs_accepts_invalid (-1) 150 0 none none
    (by norm_num) (by norm_num) (by norm_num)

/-- C10: the translation treats inputs asymmetrically — `bw` and `loss` are
passed through whenever present (so a present loss of 0 survives), `delay`
and `jitter` only when the string is non-empty (an empty string is silently
dropped), the htb flag is present exactly when bandwidth is given, and
every absent input yields an absent key. -/
theorem tc_link_kwargs_asymmetric (bw : Option ℚ) (d j : Option String)
    (loss : Option ℚ) (queue : Option Int) :
    (tc_link_kwargs bw d j loss queue).bw = bw ∧
    (tc_link_kwargs bw d j loss queue).loss = loss ∧
    (tc_link_kwargs bw d j loss queue).max_queue_size = queue ∧
    ((tc_link_kwargs bw d j loss queue).use_htb = some true ↔ bw.isSome = true) ∧
    ((tc_link_kwargs bw d j loss queue).use_htb = none ↔ bw = none) ∧
    (∀ s, d = some s → s ≠ "" → (tc_link_kwargs bw d j loss queue).delay = some s) ∧
    (d = some "" ∨ d = none → (tc_link_kwargs bw d j loss queue).delay = none) ∧
    (∀ s, j = some s → s ≠ "" → (tc_link_kwargs bw d j loss queue).jitter = some s) ∧
    (j = some "" ∨ j = none → (tc_link_kwargs bw d j loss queue).jitter = none) := by
  refine ⟨rfl, rfl, rfl, ?_, ?_, ?_, ?_, ?_, ?_⟩
  · cases bw <;> simp [tc_link_kwargs]
  · cases bw <;> simp [tc_link_kwargs]
  · rintro s rfl hs
    simp [tc_link_kwargs, truthyStr, hs]
  · rintro (rfl | rfl) <;> simp [tc_link_kwargs, truthyStr]
  · rintro s rfl hs
    simp [tc_link_kwargs, truthyStr, hs]
  · rintro (rfl | rfl) <;> simp [tc_link_kwargs, truthyStr]

theorem tc_link_kwargs_asymmetric_witness :
    (tc_link_kwargs none (some "") none (some 0) none).loss = some 0 ∧
    (tc_link_kwargs none (some "") none (some 0) none).delay = none ∧
    (tc_link_kwargs none (some "") none (some 0) none).use_htb = none :=
  have h := tc_link_kwargs_asymmetric none (some "") none (some 0) none
  ⟨h.2.1, h.2.2.2.2.2.2.1 (Or.inl rfl), h.2.2.2.2.1.mpr rfl⟩

theorem waitAll_polls_le (ready : Nat → String → Bool) :
    ∀ fuel t, (waitAll ready fuel t).2 ≤ fuel := by
  intro fuel
  induction fuel with
  | zero => intro t; simp [waitAll]
  | succ f ih =>
    intro t
    simp only [waitAll]
    split
    · simp
    · split
      · omega
      · have := ih (t + 1)
        simp only []
        omega

theorem missingAt_of_never (ready : Nat → String → Bool)
    (h : ∀ t n, ready t n = false) (t : Nat) : missingAt ready t = nodeNames :=
  List.filter_eq_self.mpr (fun a _ => by simp [h])

theorem waitAll_of_never (ready : Nat → String → Bool)
    (h : ∀ t n, ready t n = false) :
    ∀ fuel, 0 < fuel → ∀ t, waitAll ready fuel t = (nodeNames, fuel) := by
  intro fuel
  induction fuel with
  | zero => omega
  | succ f ih =>
    intro _ t
    rw [waitAll, missingAt_of_never ready h]
    have hne : nodeNames.isEmpty = false := rfl
    rw [hne]
    simp only [Bool.false_eq_true, if_false]
    by_cases hf : f = 0
    · subst hf; simp
    · have := ih (Nat.pos_of_ne_zero hf) (t + 1)
      simp [hf, this]

theorem waitAll_early (ready : Nat → String → Bool) :
    ∀ fuel t d, d < fuel → missingAt ready (t + d) = [] →
      (waitAll ready fuel t).1 = [] ∧ (waitAll ready fuel t).2 ≤ d + 1 := by
  intro fuel
  induction fuel with
  | zero => omega
  | succ f ih =>
    intro t d hd hm
    by_cases h0 : (missingAt ready t).isEmpty
    · rw [waitAll, if_pos h0]
      exact ⟨rfl, by omega⟩
    · have hdpos : d ≠ 0 := by
        rintro rfl
        rw [Nat.add_zero] at hm
        simp [hm] at h0
      have hfpos : f ≠ 0 := by omega
      rw [waitAll, if_neg h0, if_neg hfpos]
      have := ih (t + 1) (d - 1) (by omega) (by rw [show t + 1 + (d - 1) = t + d by omega]; exact hm)
      exact ⟨this.1, by omega⟩

/-- C5: The readiness wait performs at most `fuel` polls for every possible
sequence of socket appearances (it never outlives its deadline); if no
node's socket ever appears it returns the full node-name list as not ready
after exactly `fuel` polls; and if every socket is present at some poll step
before the deadline it stops early with an empty not-ready list, within one
poll of that step. -/
theorem waitAll_deadline (ready : Nat → String → Bool) (fuel : Nat)
    (hf : 0 < fuel) :
    (waitAll ready fuel 0).2 ≤ fuel ∧
    ((∀ t n, ready t n = false) → waitAll ready fuel 0 = (nodeNames, fuel)) ∧
    (∀ d, d < fuel → (∀ n ∈ nodeNames, ready d n = true) →
      (waitAll ready fuel 0).1 = [] ∧ (waitAll ready fuel 0).2 ≤ d + 1) := by
  refine ⟨waitAll_polls_le ready fuel 0,
    fun h => waitAll_of_never ready h fuel hf 0, fun d hd h => ?_⟩
  have hm : missingAt ready (0 + d) = [] := by
    refine List.filter_eq_nil_iff.mpr (fun a ha => ?_)
    simp [Nat.zero_add, h a ha]
  exact waitAll_early ready fuel 0 d hd hm

theorem waitAll_deadline_witness :
    (waitAll (fun _ _ => false) 3 0).2 ≤ 3 ∧
    waitAll (fun _ _ => false) 3 0 = (nodeNames, 3) ∧
    ((waitAll (fun t _ => decide (1 ≤ t)) 3 0).1 = [] ∧
      (waitAll (fun t _ => decide (1 ≤ t)) 3 0).2 ≤ 1 + 1) :=
  ⟨(waitAll_deadline (fun _ _ => false) 3 (by decide)).1,
    (waitAll_deadline (fun _ _ => false) 3 (by decide)).2.1 (fun _ _ => rfl),
    (waitAll_deadline (fun t _ => decide (1 ≤ t)) 3 (by decide)).2.2 1
      (by decide) (fun n _ => by decide)⟩

/-- C6: Neighbor-creation commands go out two per link, one from each
endpoint, addressed to the peer's IP and the UDP port.  The initial pass
covers exactly the links that start up (the two backbone links plus
`g1-s1` and `g2-s3`), and the handover pass exactly the two newly-up links
(`g1-s2`, `g2-s2`): the skip condition coincides with the steady-state
status, and the handover pass's links are exactly those down in steady
state and up after the transition. -/
theorem neighbor_cmds_exact (port : Nat) :
    links.filter (fun l => !(skipInitial l)) = links.filter steadyStatus ∧
    links.filter skipInitial
      = links.filter (fun l => switchedStatus l && !(steadyStatus l)) ∧
    initialLinkCmds port =
      [ { issuer := "s1", uri := "udp://10.0.0.2:" ++ toString port }
      , { issuer := "s2", uri := "udp://10.0.0.1:" ++ toString port }
      , { issuer := "s2", uri := "udp://10.0.0.6:" ++ toString port }
      , { issuer := "s3", uri := "udp://10.0.0.5:" ++ toString port }
      , { issuer := "g1", uri := "udp://10.0.0.10:" ++ toString port }
      , { issuer := "s1", uri := "udp://10.0.0.9:" ++ toString port }
      , { issuer := "g2", uri := "udp://10.0.0.22:" ++ toString port }
      , { issuer := "s3", uri := "udp://10.0.0.21:" ++ toString port } ] ∧
    handoverLinkCmds port =
      [ { issuer := "g1", uri := "udp://10.0.0.14:" ++ toString port }
      , { issuer := "s2", uri := "udp://10.0.0.13:" ++ toString port }
      , { issuer := "g2", uri := "udp://10.0.0.18:" ++ toString port }
      , { issuer := "s2", uri := "udp://10.0.0.17:" ++ toString port } ] :=
  ⟨by decide, by decide, rfl, rfl⟩

/-- C9: The handover transition is armed at most once per process lifetime:
exactly one background run when the configured delay is positive (after
which the status is the switched one), and none when the delay is zero or
negative or left at its absent default `0.0` — the steady state is then
terminal. -/
theorem handover_at_most_once (delay : ℚ) :
    (handoverThreads delay).length ≤ 1 ∧
    (0 < delay → handoverThreads delay = [handoverTransition] ∧
      finalStatus delay = switchedStatus) ∧
    (delay ≤ 0 → handoverThreads delay = [] ∧ finalStatus delay = steadyStatus) := by
  refine ⟨?_, fun h => ?_, fun h => ?_⟩
  · by_cases h : 0 < delay <;> simp [handoverThreads, h]
  · simp [handoverThreads, finalStatus, h, switchedStatus]
  · have h' : ¬0 < delay := not_lt.mpr h
    simp [handoverThreads, finalStatus, h']

theorem handover_at_most_once_witness :
    handoverThreads 1 = [handoverTransition] ∧
    handoverThreads 0 = [] ∧ finalStatus 0 = steadyStatus :=
  ⟨((handover_at_most_once 1).2.1 (by norm_num)).1,
    ((handover_at_most_once 0).2.2 (by norm_num)).1,
    ((handover_at_most_once 0).2.2 (by norm_num)).2⟩

/-- C7: With no explicit binary path, nothing on the search path and the
conventional build location absent, startup aborts with the cannot-find
error before any host is created and before any directory, wrapper, config
or log file is written: the resulting world is the pristine one. -/
theorem startup_aborts_when_binary_unresolved (isRoot : Bool) (fs : Fsys)
    (args : MainArgs) (repo_root : String) (hroot : isRoot = true)
    (hexp : args.ndnd = none) (hwhich : fs.whichNdnd = none)
    (hrepo : fs.pathExists (repo_root ++ "/ndnd/ndnd") = false) :
    mainStartup isRoot fs args repo_root =
      (World.pristine,
        .error "Cannot find ndnd binary. Build it with `make -C ndnd` or pass `--ndnd /path/to/ndnd`.") ∧
    World.pristine.hosts = [] ∧ World.pristine.files = [] ∧
      World.pristine.dirs = [] ∧ World.pristine.procs = [] := by
  subst hroot
  refine ⟨?_, rfl, rfl, rfl, rfl⟩
  simp [mainStartup, find_ndnd, hexp, hwhich, hrepo]

theorem startup_aborts_when_binary_unresolved_witness :
    mainStartup true
        { pathExists := fun _ => false, whichNdnd := none,
          isAbs := fun _ => true, abspath := id }
        { ndnd := none, state_dir := "/tmp/ndn-mn" } "/repo"
      = (World.pristine,
          .error "Cannot find ndnd binary. Build it with `make -C ndnd` or pass `--ndnd /path/to/ndnd`.") :=
  (startup_aborts_when_binary_unresolved true
      { pathExists := fun _ => false, whichNdnd := none,
        isAbs := fun _ => true, abspath := id }
      { ndnd := none, state_dir := "/tmp/ndn-mn" } "/repo"
      rfl rfl rfl rfl).1

theorem cleanupLoop_covers :
    ∀ snapshot tbl : List (String × ProcBehavior),
      (∀ q ∈ tbl, ∃ e ∈ snapshot, q.1 = e.1) → cleanupLoop snapshot tbl = [] := by
  intro snapshot
  induction snapshot with
  | nil =>
    intro tbl h
    cases tbl with
    | nil => rfl
    | cons q rest =>
      obtain ⟨e, he, _⟩ := h q (by simp)
      exact absurd he (by simp)
  | cons e rest ih =>
    intro tbl h
    rw [cleanupLoop]
    apply ih
    intro q hq
    have hq' := List.mem_filter.mp hq
    obtain ⟨x, hx, hname⟩ := h q hq'.1
    have hne : q.1 ≠ e.1 := by simpa using hq'.2
    rcases List.mem_cons.mp hx with rfl | hxr
    · exact absurd hname hne
    · exact ⟨x, hxr, hname⟩

theorem cleanupState_procs_nil (s : RunState) : (cleanupState s).procs = [] :=
  cleanupLoop_covers s.procs s.procs (fun q hq => ⟨q, hq, rfl⟩)

/-- C8 counterexample: cleanup never removes control-socket paths.  With one
tracked daemon whose graceful and forceful terminations both fail and whose
socket file is present, two consecutive cleanups run without error and empty
the process table, yet the socket path is still behind — refuting "leaves no
control-socket path behind". -/
theorem cleanup_leaves_socket_path :
    (cleanupState (cleanupState stuckRunState)).sockets = ["/tmp/ndn-mn/g1.sock"] ∧
    (cleanupState (cleanupState stuckRunState)).procs = [] := by
  decide

/-- C8 amended: cleanup is idempotent and total on what it owns: it empties
the tracked process table even when both the graceful and the forceful
termination of every process fail, running it twice equals running it once,
and for each tracked process it sends the graceful SIGTERM and escalates to
SIGKILL exactly when the bounded graceful wait fails; control-socket paths,
however, are not removed by cleanup (they are unlinked only at the next
run's startup). -/
theorem cleanup_idempotent (s : RunState) :
    (cleanupState s).procs = [] ∧
    cleanupState (cleanupState s) = cleanupState s ∧
    (cleanupState s).sockets = s.sockets ∧
    (cleanup s).2 = s.procs.flatMap (fun e => stopActions e.1 e.2) := by
  refine ⟨cleanupState_procs_nil s, ?_, rfl, rfl⟩
  have hmk : ∀ t : RunState, t.procs = [] → t.netRunning = false →
      t = { procs := [], sockets := t.sockets, netRunning := false } := by
    intro t h1 h2
    cases t
    simp_all
  have hA := hmk (cleanupState (cleanupState s)) (cleanupState_procs_nil _) rfl
  have hB := hmk (cleanupState s) (cleanupState_procs_nil _) rfl
  rw [hA, hB]
  rfl

end MnNdnd
